import Mathlib

/-!
Shallow embedding of the KalshiMarketMaker repository (src/mm.py and
src/kalshi_api.py) and proofs about it.

Numeric values that Python holds as floats are modelled as rationals (ℚ);
`math.exp` and `math.log` are abstracted as parameters of the model
(fields `exp` and `log` of `MMParams`), so every theorem quantifying over
them holds in particular for the real transcendental functions.
Python `int()` truncation is modelled by `pyInt`, and Python's banker's
rounding `round(x, 2)` by `round2`.
-/

namespace KalshiMM

/-- Python `int(q)`: truncation toward zero of a rational. -/
def pyInt (q : ℚ) : ℤ :=
  if 0 ≤ q then ⌊q⌋ else ⌈q⌉

/-- Python `str.lower()` on the ASCII strings it is applied to here. -/
def pyLower (s : String) : String :=
  ⟨s.data.map Char.toLower⟩

/-- Python `round(q)` to the nearest integer, ties to even (banker's rounding). -/
def roundHalfEven (q : ℚ) : ℤ :=
  let f := ⌊q⌋
  let frac := q - (f : ℚ)
  if frac < 1/2 then f
  else if 1/2 < frac then f + 1
  else if 2 ∣ f then f else f + 1

/-- Python `round(q, 2)`. -/
def round2 (q : ℚ) : ℚ :=
  (roundHalfEven (q * 100) : ℚ) / 100

/-- The constructor parameters of `AvellanedaMarketMaker` (src/mm.py),
together with the two transcendental functions `math.exp` and `math.log`
the quoting formulas use, abstracted as rational-valued functions. -/
structure MMParams where
  base_gamma : ℚ
  k : ℚ
  sigma : ℚ
  T : ℚ
  max_position : ℤ
  min_spread : ℚ
  position_limit_buffer : ℚ
  inventory_skew_factor : ℚ
  trade_side : String
  exp : ℚ → ℚ
  log : ℚ → ℚ

/-- `AvellanedaMarketMaker.calculate_dynamic_gamma` (src/mm.py lines 95-97):
`position_ratio = inventory / max_position`;
returns `base_gamma * exp(-abs(position_ratio))`. -/
def calculate_dynamic_gamma (p : MMParams) (inventory : ℤ) : ℚ :=
  let position_ratio := (inventory : ℚ) / (p.max_position : ℚ)
  p.base_gamma * p.exp (-|position_ratio|)

/-- `AvellanedaMarketMaker.calculate_reservation_price` (src/mm.py lines 82-85):
`mid + inventory*skew_factor*mid - inventory*dynamic_gamma*sigma^2*(1 - t/T)`. -/
def calculate_reservation_price (p : MMParams) (mid_price : ℚ) (inventory : ℤ) (t : ℚ) : ℚ :=
  let dynamic_gamma := calculate_dynamic_gamma p inventory
  let inventory_skew := (inventory : ℚ) * p.inventory_skew_factor * mid_price
  mid_price + inventory_skew - (inventory : ℚ) * dynamic_gamma * p.sigma ^ 2 * (1 - t / p.T)

/-- `AvellanedaMarketMaker.calculate_optimal_spread` (src/mm.py lines 87-93):
`base_spread = dynamic_gamma*sigma^2*(1 - t/T) + (2/dynamic_gamma)*log(1 + dynamic_gamma/k)`;
`spread_adjustment = 1 - (abs(inventory)/max_position)^2`;
returns `max(base_spread * spread_adjustment * 0.01, min_spread)`. -/
def calculate_optimal_spread (p : MMParams) (t : ℚ) (inventory : ℤ) : ℚ :=
  let dynamic_gamma := calculate_dynamic_gamma p inventory
  let base_spread := dynamic_gamma * p.sigma ^ 2 * (1 - t / p.T) +
    (2 / dynamic_gamma) * p.log (1 + dynamic_gamma / p.k)
  let position_ratio := ((|inventory| : ℤ) : ℚ) / (p.max_position : ℚ)
  let spread_adjustment := 1 - position_ratio ^ 2
  max (base_spread * spread_adjustment * (1/100)) p.min_spread

/-- The local `bid_spread` of `AvellanedaMarketMaker.calculate_asymmetric_quotes`
(src/mm.py lines 67-74): with `base_spread = calculate_optimal_spread(t, inventory)`
and `spread_adjustment = base_spread * abs(inventory/max_position) * 3`,
`bid_spread = base_spread/2 + spread_adjustment` when `inventory > 0`,
else `max(base_spread/2 - spread_adjustment, min_spread/2)`. -/
def bid_spread_of (p : MMParams) (t : ℚ) (inventory : ℤ) : ℚ :=
  let base_spread := calculate_optimal_spread p t inventory
  let position_ratio := (inventory : ℚ) / (p.max_position : ℚ)
  let spread_adjustment := base_spread * |position_ratio| * 3
  if inventory > 0 then base_spread / 2 + spread_adjustment
  else max (base_spread / 2 - spread_adjustment) (p.min_spread / 2)

/-- The local `ask_spread` of `AvellanedaMarketMaker.calculate_asymmetric_quotes`
(src/mm.py lines 67-75): `max(base_spread/2 - spread_adjustment, min_spread/2)`
when `inventory > 0`, else `base_spread/2 + spread_adjustment`. -/
def ask_spread_of (p : MMParams) (t : ℚ) (inventory : ℤ) : ℚ :=
  let base_spread := calculate_optimal_spread p t inventory
  let position_ratio := (inventory : ℚ) / (p.max_position : ℚ)
  let spread_adjustment := base_spread * |position_ratio| * 3
  if inventory > 0 then max (base_spread / 2 - spread_adjustment) (p.min_spread / 2)
  else base_spread / 2 + spread_adjustment

/-- `AvellanedaMarketMaker.calculate_asymmetric_quotes` (src/mm.py lines 63-80):
`bid_price = max(0, min(mid_price, reservation_price - bid_spread))`;
`ask_price = min(1, max(mid_price, reservation_price + ask_spread))`. -/
def calculate_asymmetric_quotes (p : MMParams) (mid_price : ℚ) (inventory : ℤ) (t : ℚ) :
    ℚ × ℚ :=
  let reservation_price := calculate_reservation_price p mid_price inventory t
  let bid_price := max 0 (min mid_price (reservation_price - bid_spread_of p t inventory))
  let ask_price := min 1 (max mid_price (reservation_price + ask_spread_of p t inventory))
  (bid_price, ask_price)

/-- `AvellanedaMarketMaker.calculate_order_sizes` (src/mm.py lines 99-110):
`remaining_capacity = max_position - abs(inventory)`;
`buffer_size = int(max_position * position_limit_buffer)`;
if `inventory > 0` then `(max(1, min(buffer_size, remaining_capacity)), max(1, max_position))`
else `(max(1, max_position), max(1, min(buffer_size, remaining_capacity)))`. -/
def calculate_order_sizes (p : MMParams) (inventory : ℤ) : ℤ × ℤ :=
  let remaining_capacity := p.max_position - |inventory|
  let buffer_size := pyInt ((p.max_position : ℚ) * p.position_limit_buffer)
  if inventory > 0 then
    (max 1 (min buffer_size remaining_capacity), max 1 p.max_position)
  else
    (max 1 p.max_position, max 1 (min buffer_size remaining_capacity))

/-- An open order as returned by the venue (fields of the JSON dicts that
`AvellanedaMarketMaker` reads: `order_id`, `side`, `action`, `yes_price`,
`no_price`, `remaining_count`; the price fields are integer cents). -/
structure OpenOrder where
  order_id : String
  side : String
  action : String
  yes_price : ℤ
  no_price : ℤ
  remaining_count : ℤ
deriving DecidableEq

/-- The per-order price read by `handle_order_side` (src/mm.py line 138):
`float(order['yes_price']) / 100` when `trade_side == 'yes'`,
else `float(order['no_price']) / 100`. -/
def order_price (p : MMParams) (o : OpenOrder) : ℚ :=
  if p.trade_side = "yes" then (o.yes_price : ℚ) / 100 else (o.no_price : ℚ) / 100

/-- The scan loop of `handle_order_side` (src/mm.py lines 136-144), carrying the
`keep_order` accumulator: an order is kept when no order has been kept yet,
its price is strictly within 0.01 of the desired price, and its
`remaining_count` equals the desired size; every other order is cancelled.
Returns the final `keep_order` and the list of cancelled order ids, in
cancellation order. -/
def scan_orders (p : MMParams) (desired_price : ℚ) (desired_size : ℤ) :
    List OpenOrder → Option OpenOrder → Option OpenOrder × List String
  | [], keep_order => (keep_order, [])
  | o :: rest, keep_order =>
    if keep_order.isNone ∧ |order_price p o - desired_price| < 1/100 ∧
        o.remaining_count = desired_size then
      scan_orders p desired_price desired_size rest (some o)
    else
      let r := scan_orders p desired_price desired_size rest keep_order
      (r.1, o.order_id :: r.2)

/-- The arguments of a `place_order` call issued by the reconciler. -/
structure Placement where
  action : String
  side : String
  price : ℚ
  quantity : ℤ
deriving DecidableEq

/-- `AvellanedaMarketMaker.handle_order_side` (src/mm.py lines 135-155) as a
function from its inputs to its effects. `current_price` is the mid price
re-fetched at decision time (`self.api.get_price()[self.trade_side]`,
line 146). Returns the cancelled order ids and the placement, if any: a new
order is placed only when no order was kept and
`(action == 'buy' and desired_price < current_price) or
 (action == 'sell' and desired_price > current_price)`. -/
def handle_order_side (p : MMParams) (action : String) (orders : List OpenOrder)
    (desired_price : ℚ) (desired_size : ℤ) (current_price : ℚ) :
    List String × Option Placement :=
  let r := scan_orders p desired_price desired_size orders none
  let placement :=
    if r.1.isNone then
      if (action = "buy" ∧ desired_price < current_price) ∨
          (action = "sell" ∧ desired_price > current_price) then
        some ⟨action, p.trade_side, desired_price, desired_size⟩
      else none
    else none
  (r.2, placement)

/-- `AvellanedaMarketMaker.manage_orders` (src/mm.py lines 112-133): splits the
open orders matching `trade_side` into buy and sell lists and runs
`handle_order_side` on each; `cp_buy` and `cp_sell` are the mid prices
re-fetched inside each of the two `handle_order_side` calls. -/
def manage_orders (p : MMParams) (current_orders : List OpenOrder)
    (bid_price ask_price : ℚ) (buy_size sell_size : ℤ) (cp_buy cp_sell : ℚ) :
    (List String × Option Placement) × (List String × Option Placement) :=
  let buy_orders := current_orders.filter fun o => o.side = p.trade_side ∧ o.action = "buy"
  let sell_orders := current_orders.filter fun o => o.side = p.trade_side ∧ o.action = "sell"
  (handle_order_side p "buy" buy_orders bid_price buy_size cp_buy,
   handle_order_side p "sell" sell_orders ask_price sell_size cp_sell)

/-! ## The gateway (src/kalshi_api.py) -/

/-- The JSON payload built by `KalshiTradingAPI.place_order`
(src/kalshi_api.py lines 263-278). `count` is held as a rational because the
value placed in it is whatever was passed as the third positional argument. -/
structure OrderPayload where
  ticker : String
  action : String
  side : String
  count : ℚ
  type : String
  yes_price : Option ℤ
  no_price : Option ℤ
  expiration_ts : Option ℤ
deriving DecidableEq

/-- `KalshiTradingAPI.place_order` (src/kalshi_api.py lines 240-278), with its
own parameter order `(action, side, count, price, expiration_ts)`:
`payload = {ticker, action: action.lower(), side, count, type: 'limit'}`;
`price_to_send = int(price * 100)` goes to `yes_price` when `side == 'yes'`,
else to `no_price`; `expiration_ts` is added when not `None`. -/
def kalshi_place_order_payload (market_ticker action side : String)
    (count : ℚ) (price : ℚ) (expiration_ts : Option ℤ) : OrderPayload :=
  let price_to_send := pyInt (price * 100)
  { ticker := market_ticker
    action := pyLower action
    side := side
    count := count
    type := "limit"
    yes_price := if side = "yes" then some price_to_send else none
    no_price := if side = "yes" then none else some price_to_send
    expiration_ts := expiration_ts }

/-- `place_order` as called through the `AbstractTradingAPI` interface
(src/kalshi_api.py lines 17-19: `place_order(action, side, price, quantity,
expiration_ts)`; src/mm.py line 150 passes the desired price third and the
desired size fourth). `KalshiTradingAPI.place_order` binds the third
positional argument to `count` and the fourth to `price`. -/
def gateway_place_order_payload (market_ticker action side : String)
    (price : ℚ) (quantity : ℤ) (expiration_ts : Option ℤ) : OrderPayload :=
  kalshi_place_order_payload market_ticker action side price (quantity : ℚ) expiration_ts

/-- The market data fields read by `KalshiTradingAPI.get_price`
(src/kalshi_api.py lines 224-227), integer cents from the JSON response. -/
structure MarketData where
  yes_bid : ℤ
  yes_ask : ℤ
  no_bid : ℤ
  no_ask : ℤ

/-- The dict `{"yes": ..., "no": ...}` returned by `get_price` on success. -/
structure MidPrices where
  yes : ℚ
  no : ℚ

/-- `KalshiTradingAPI.get_price` (src/kalshi_api.py lines 211-238): on success
computes `round((bid + ask)/2, 2)` per side. The except handler (line 237)
logs `f"Failed to get orderbook for {ticker}: {e}"`, but `ticker` is
undefined in that scope, so evaluating the f-string raises a `NameError`
inside the handler: the `return None` on line 238 is unreachable and every
failure propagates out of the method as a `NameError`. The request/decode
outcome is the argument. -/
def kalshi_get_price (resp : Except String MarketData) : Except String MidPrices :=
  match resp with
  | .error _ => .error "NameError: name ticker is not defined"
  | .ok d =>
    let yes_bid := (d.yes_bid : ℚ) / 100
    let yes_ask := (d.yes_ask : ℚ) / 100
    let no_bid := (d.no_bid : ℚ) / 100
    let no_ask := (d.no_ask : ℚ) / 100
    .ok ⟨round2 ((yes_bid + yes_ask) / 2), round2 ((no_bid + no_ask) / 2)⟩

/-- `KalshiTradingAPI.get_position` (src/kalshi_api.py lines 177-209): on
success sums the `position` fields of the `market_positions` entries whose
`ticker` matches; any exception is caught and the empty list `[]` is
returned (a list, although the success value is an integer). The response is
modelled as the list of `(ticker, position)` pairs. -/
def kalshi_get_position (market_ticker : String)
    (resp : Except String (List (String × ℤ))) : ℤ ⊕ List Unit :=
  match resp with
  | .error _ => .inr []
  | .ok positions =>
    .inl ((positions.filter fun q => q.1 = market_ticker).map Prod.snd).sum

/-- `KalshiTradingAPI.get_orders` (src/kalshi_api.py lines 319-335): returns
the decoded order list on success, the empty list on any exception. -/
def kalshi_get_orders (resp : Except String (List OpenOrder)) : List OpenOrder :=
  match resp with
  | .error _ => []
  | .ok orders => orders

/-- `KalshiTradingAPI.cancel_order` (src/kalshi_api.py lines 294-317): `True`
on success, `False` on any exception. -/
def kalshi_cancel_order (resp : Except String Unit) : Bool :=
  match resp with
  | .error _ => false
  | .ok _ => true

/-- The result of `KalshiTradingAPI.place_order` (src/kalshi_api.py lines
280-292): the order id string on success, `None` on any exception. -/
def kalshi_place_order_result (resp : Except String String) : Option String :=
  match resp with
  | .error _ => none
  | .ok order_id => some order_id

/-! ## Request signing (src/kalshi_api.py lines 115-147) -/

/-- `path.split('?')[0]` (src/kalshi_api.py line 134): the part of the path
before the first `'?'`. -/
def path_without_query (path : String) : String :=
  ⟨path.data.takeWhile fun c => c ≠ '?'⟩

/-- The message signed by `KalshiTradingAPI._get_signed_headers`
(src/kalshi_api.py line 137): `timestamp_str + method + path_without_query`. -/
def signing_message (timestamp_str method path : String) : String :=
  timestamp_str ++ method ++ path_without_query path

/-! ## One tick of the strategy loop (src/mm.py lines 39-59) -/

/-- The fetch-and-compute phase of one iteration of
`AvellanedaMarketMaker.run` (src/mm.py lines 45-52), given the outcomes of
the two gateway reads. `get_price` either returns the mid-price dict or
raises (its failure path escalates to a `NameError`, see
`kalshi_get_price`); an exception from it propagates uncaught through
`run`. A list-valued position (the failure sentinel of `get_position`)
raises a `TypeError` at `inventory / self.max_position` inside
`calculate_dynamic_gamma`, also uncaught in `run`; either way the tick
crashes (`.error`). On success the computed quotes and order sizes are
returned. -/
def run_tick (p : MMParams) (price_result : Except String MidPrices)
    (position_result : ℤ ⊕ List Unit) (t : ℚ) : Except String (ℚ × ℚ × ℤ × ℤ) :=
  match price_result with
  | .error e => .error e
  | .ok mid_prices =>
    let mid_price := if p.trade_side = "yes" then mid_prices.yes else mid_prices.no
    match position_result with
    | .inr _ => .error "TypeError: unsupported operand type(s) for /: list and int"
    | .inl inventory =>
      let q := calculate_asymmetric_quotes p mid_price inventory t
      let s := calculate_order_sizes p inventory
      .ok (q.1, q.2, s.1, s.2)

/-! ## Shared parameter instantiations and helper lemmas -/

/-- The parameters of the spec's reference scenario: `gamma=0.1`, `k=1.5`,
`sigma=0.02`, `T=60`, `max_position=100`, `min_spread=0.01`,
`position_limit_buffer=0.1`, `inventory_skew_factor=0.01`, trading the yes
side. The `exp` and `log` fields are instantiated with concrete rational
functions; every general theorem below quantifies over those fields, so
nothing proved about this instance depends on their particular values. -/
def scenarioParams : MMParams where
  base_gamma := 1/10
  k := 3/2
  sigma := 1/50
  T := 60
  max_position := 100
  min_spread := 1/100
  position_limit_buffer := 1/10
  inventory_skew_factor := 1/100
  trade_side := "yes"
  exp := fun q => 1 + q
  log := fun q => q

/-- The scenario parameters with the transcendental functions left abstract. -/
def c3Params (e l : ℚ → ℚ) : MMParams :=
  { scenarioParams with exp := e, log := l }

theorem reservation_price_zero_inventory (p : MMParams) (mid_price t : ℚ) :
    calculate_reservation_price p mid_price 0 t = mid_price := by
  simp [calculate_reservation_price]

theorem min_spread_le_optimal (p : MMParams) (t : ℚ) (inventory : ℤ) :
    p.min_spread ≤ calculate_optimal_spread p t inventory :=
  le_max_right _ _

theorem bid_spread_zero_inventory (p : MMParams) (t : ℚ) :
    bid_spread_of p t 0 = calculate_optimal_spread p t 0 / 2 := by
  have h := min_spread_le_optimal p t 0
  simp only [bid_spread_of]
  norm_num
  linarith

theorem ask_spread_zero_inventory (p : MMParams) (t : ℚ) :
    ask_spread_of p t 0 = calculate_optimal_spread p t 0 / 2 := by
  simp only [ask_spread_of]
  norm_num

/-! ## Claim theorems -/

/-- Claim C5: for every `mid_price` in `[0,1]`, every `inventory` in
`[-max_position, max_position]`, and every `t` in `[0,T]` (with
`max_position ≥ 1`, `T > 0`, `gamma > 0`, `k > 0`, `min_spread > 0`),
`calculate_asymmetric_quotes` returns `(bid, ask)` with
`bid ≤ mid_price ≤ ask` and both `bid` and `ask` in `[0,1]`. -/
theorem C5_quotes_bracket_mid (p : MMParams) (mid_price : ℚ) (inventory : ℤ) (t : ℚ)
    (hm0 : 0 ≤ mid_price) (hm1 : mid_price ≤ 1)
    (hi0 : -p.max_position ≤ inventory) (hi1 : inventory ≤ p.max_position)
    (ht0 : 0 ≤ t) (ht1 : t ≤ p.T)
    (hmax : 1 ≤ p.max_position) (hT : 0 < p.T) (hg : 0 < p.base_gamma)
    (hk : 0 < p.k) (hs : 0 < p.min_spread) :
    (calculate_asymmetric_quotes p mid_price inventory t).1 ≤ mid_price ∧
    mid_price ≤ (calculate_asymmetric_quotes p mid_price inventory t).2 ∧
    0 ≤ (calculate_asymmetric_quotes p mid_price inventory t).1 ∧
    (calculate_asymmetric_quotes p mid_price inventory t).1 ≤ 1 ∧
    0 ≤ (calculate_asymmetric_quotes p mid_price inventory t).2 ∧
    (calculate_asymmetric_quotes p mid_price inventory t).2 ≤ 1 := by
  simp only [calculate_asymmetric_quotes]
  refine ⟨max_le hm0 (min_le_left _ _), le_min hm1 (le_max_left _ _), le_max_left _ _,
    le_trans (max_le hm0 (min_le_left _ _)) hm1, ?_, min_le_left _ _⟩
  exact le_trans hm0 (le_min hm1 (le_max_left _ _))

/-- Closed instance of C5 at the scenario parameters with `mid_price = 1/2`,
`inventory = 0`, `t = 0`. -/
theorem C5_witness :
    (calculate_asymmetric_quotes scenarioParams (1/2) 0 0).1 ≤ 1/2 ∧
    (1:ℚ)/2 ≤ (calculate_asymmetric_quotes scenarioParams (1/2) 0 0).2 ∧
    0 ≤ (calculate_asymmetric_quotes scenarioParams (1/2) 0 0).1 ∧
    (calculate_asymmetric_quotes scenarioParams (1/2) 0 0).1 ≤ 1 ∧
    0 ≤ (calculate_asymmetric_quotes scenarioParams (1/2) 0 0).2 ∧
    (calculate_asymmetric_quotes scenarioParams (1/2) 0 0).2 ≤ 1 :=
  C5_quotes_bracket_mid scenarioParams (1/2) 0 0
    (by norm_num) (by norm_num) (by norm_num [scenarioParams]) (by norm_num [scenarioParams])
    (by norm_num) (by norm_num [scenarioParams]) (by norm_num [scenarioParams])
    (by norm_num [scenarioParams]) (by norm_num [scenarioParams]) (by norm_num [scenarioParams])
    (by norm_num [scenarioParams])

/-- Claim C6: for every `t` in `[0,T]` and every `inventory` in
`[-max_position, max_position]` (with `gamma > 0`, `k > 0`,
`max_position ≥ 1`, `min_spread > 0`),
`calculate_optimal_spread t inventory ≥ min_spread`. -/
theorem C6_spread_floor (p : MMParams) (t : ℚ) (inventory : ℤ)
    (ht0 : 0 ≤ t) (ht1 : t ≤ p.T)
    (hi0 : -p.max_position ≤ inventory) (hi1 : inventory ≤ p.max_position)
    (hg : 0 < p.base_gamma) (hk : 0 < p.k)
    (hmax : 1 ≤ p.max_position) (hs : 0 < p.min_spread) :
    p.min_spread ≤ calculate_optimal_spread p t inventory :=
  min_spread_le_optimal p t inventory

/-- Closed instance of C6 at the scenario parameters with `t = 0`,
`inventory = 0`. -/
theorem C6_witness : scenarioParams.min_spread ≤ calculate_optimal_spread scenarioParams 0 0 :=
  C6_spread_floor scenarioParams 0 0
    (by norm_num) (by norm_num [scenarioParams]) (by norm_num [scenarioParams])
    (by norm_num [scenarioParams]) (by norm_num [scenarioParams]) (by norm_num [scenarioParams])
    (by norm_num [scenarioParams]) (by norm_num [scenarioParams])

/-- Claim C9: for every `mid_price` and every `t` in `[0,T]`, when
`inventory = 0` the quote is symmetric about the reservation price before
clamping: both half-spreads used by `calculate_asymmetric_quotes` equal
`calculate_optimal_spread t 0 / 2`, and the quotes are the clamps of
`reservation_price ∓ spread/2`. -/
theorem C9_symmetric_at_zero_inventory (p : MMParams) (mid_price t : ℚ)
    (ht0 : 0 ≤ t) (ht1 : t ≤ p.T) :
    bid_spread_of p t 0 = calculate_optimal_spread p t 0 / 2 ∧
    ask_spread_of p t 0 = calculate_optimal_spread p t 0 / 2 ∧
    calculate_asymmetric_quotes p mid_price 0 t =
      (max 0 (min mid_price
        (calculate_reservation_price p mid_price 0 t - calculate_optimal_spread p t 0 / 2)),
       min 1 (max mid_price
        (calculate_reservation_price p mid_price 0 t + calculate_optimal_spread p t 0 / 2))) := by
  refine ⟨bid_spread_zero_inventory p t, ask_spread_zero_inventory p t, ?_⟩
  simp only [calculate_asymmetric_quotes, bid_spread_zero_inventory, ask_spread_zero_inventory]

/-- Closed instance of C9 at the scenario parameters with `mid_price = 1/2`,
`t = 0`. -/
theorem C9_witness :
    bid_spread_of scenarioParams 0 0 = calculate_optimal_spread scenarioParams 0 0 / 2 ∧
    ask_spread_of scenarioParams 0 0 = calculate_optimal_spread scenarioParams 0 0 / 2 ∧
    calculate_asymmetric_quotes scenarioParams (1/2) 0 0 =
      (max 0 (min (1/2)
        (calculate_reservation_price scenarioParams (1/2) 0 0 -
          calculate_optimal_spread scenarioParams 0 0 / 2)),
       min 1 (max (1/2)
        (calculate_reservation_price scenarioParams (1/2) 0 0 +
          calculate_optimal_spread scenarioParams 0 0 / 2))) :=
  C9_symmetric_at_zero_inventory scenarioParams (1/2) 0 (by norm_num)
    (by norm_num [scenarioParams])

/-- Claim C10: for every `t` in `[0,T]` (with `gamma > 0`, `k > 0`,
`min_spread > 0`, `max_position ≥ 1`), when `|inventory| = max_position`,
`calculate_optimal_spread t inventory = min_spread`: the utilization factor
`1 - (|inventory|/max_position)^2` vanishes and the floor takes over. -/
theorem C10_spread_at_full_utilization (p : MMParams) (t : ℚ) (inventory : ℤ)
    (ht0 : 0 ≤ t) (ht1 : t ≤ p.T)
    (hinv : |inventory| = p.max_position)
    (hg : 0 < p.base_gamma) (hk : 0 < p.k)
    (hs : 0 < p.min_spread) (hmax : 1 ≤ p.max_position) :
    calculate_optimal_spread p t inventory = p.min_spread := by
  have hmax0 : ((p.max_position : ℤ) : ℚ) ≠ 0 := by
    exact_mod_cast (by omega : p.max_position ≠ 0)
  simp only [calculate_optimal_spread, hinv, div_self hmax0]
  norm_num
  linarith

/-- Closed instance of C10 at the scenario parameters with `t = 0`,
`inventory = 100 = max_position`. -/
theorem C10_witness : calculate_optimal_spread scenarioParams 0 100 = scenarioParams.min_spread :=
  C10_spread_at_full_utilization scenarioParams 0 100
    (by norm_num) (by norm_num [scenarioParams]) (by norm_num [scenarioParams])
    (by norm_num [scenarioParams]) (by norm_num [scenarioParams]) (by norm_num [scenarioParams])
    (by norm_num [scenarioParams])

/-- Claim C1: the claim states that a gateway-interface call
`place_order(action='buy', side='yes', price=0.45, quantity=10)` produces a
payload with `yes_price=45` and `count=10`. The code contradicts its own
interface declaration: `AbstractTradingAPI.place_order` takes
`(action, side, price, quantity)` while `KalshiTradingAPI.place_order`
takes `(action, side, count, price)`, so the price argument lands in the
payload's `count` field and the quantity is multiplied by 100 and sent as
the price in cents. This theorem evaluates the payload at the failing
input: `count = 0.45` and `yes_price = 1000`, not `count = 10` and
`yes_price = 45`. -/
theorem C1_payload_at_failing_input :
    gateway_place_order_payload "TICKER" "buy" "yes" (45/100) 10 none =
      { ticker := "TICKER", action := "buy", side := "yes", count := 45/100, type := "limit",
        yes_price := some 1000, no_price := none, expiration_ts := none } ∧
    (gateway_place_order_payload "TICKER" "buy" "yes" (45/100) 10 none).yes_price ≠ some 45 ∧
    (gateway_place_order_payload "TICKER" "buy" "yes" (45/100) 10 none).count ≠ 10 := by
  have hlow : pyLower "buy" = "buy" := by decide
  refine ⟨?_, ?_, ?_⟩ <;>
    norm_num [gateway_place_order_payload, kalshi_place_order_payload, pyInt, hlow,
      OrderPayload.mk.injEq]

/-- Claim C2 (amended): `get_position`, `get_orders`, `place_order` and
`cancel_order` convert failures raised inside them to sentinel values at
the gateway boundary (empty list, `None` order id, `False`); `get_price`
does not: its except handler references the undefined name `ticker`, so any
failure raised inside it escalates to a `NameError` that propagates out of
the gateway and, uncaught in `run`, crashes the loop. Moreover the strategy
loop does not treat the list-valued position sentinel as "no actionable
data": dividing it by `max_position` raises an uncaught `TypeError` that
crashes the tick. Only the empty order list, a `False` cancel result and a
`None` place result are tolerated. -/
theorem C2_sentinels_and_crash :
    (∀ e : String,
      kalshi_get_price (.error e) = .error "NameError: name ticker is not defined") ∧
    (∀ (t : String) (e : String), kalshi_get_position t (.error e) = .inr []) ∧
    (∀ e : String, kalshi_get_orders (.error e) = []) ∧
    (∀ e : String, kalshi_cancel_order (.error e) = false) ∧
    (∀ e : String, kalshi_place_order_result (.error e) = none) ∧
    (∀ (p : MMParams) (e : String) (pos : ℤ ⊕ List Unit) (t : ℚ),
      run_tick p (.error e) pos t = .error e) ∧
    (∀ (p : MMParams) (mids : MidPrices) (lst : List Unit) (t : ℚ),
      run_tick p (.ok mids) (.inr lst) t =
        .error "TypeError: unsupported operand type(s) for /: list and int") :=
  ⟨fun _ => rfl, fun _ _ => rfl, fun _ => rfl, fun _ => rfl, fun _ => rfl,
   fun _ _ _ _ => rfl, fun _ _ _ _ => rfl⟩

/-- Counterexample to claim C2 as stated: a failure raised inside
`get_price` is not converted to a sentinel at the gateway boundary — the
except handler itself raises a `NameError` on the undefined name `ticker`,
so the failure propagates; and since `run` has no handler, the tick crashes
instead of skipping the action. Shown at a concrete transport failure with
a perfectly good position of 0. -/
theorem C2_counterexample :
    kalshi_get_price (.error "requests.exceptions.ConnectionError") =
      .error "NameError: name ticker is not defined" ∧
    run_tick scenarioParams (.error "NameError: name ticker is not defined") (.inl 0) 0 =
      .error "NameError: name ticker is not defined" :=
  ⟨rfl, rfl⟩

/-- Claim C3 (amended): at the scenario parameters (`mid_yes=0.50`,
`inventory=0`, `t=0`, `T=60`, `gamma=0.1`, `k=1.5`, `sigma=0.02`,
`max_position=100`, `min_spread=0.01`, defaults for the rest), and for any
functions in place of `math.exp` and `math.log`, the computed quote
satisfies `bid < 0.50 < ask`; `calculate_order_sizes 0` returns
`buy_size = max_position = 100` and
`sell_size = int(max_position * position_limit_buffer) = 10`
(not `sell_size = max_position` as claimed). -/
theorem C3_scenario (e l : ℚ → ℚ) :
    (calculate_asymmetric_quotes (c3Params e l) (1/2) 0 0).1 < 1/2 ∧
    (1:ℚ)/2 < (calculate_asymmetric_quotes (c3Params e l) (1/2) 0 0).2 ∧
    calculate_order_sizes (c3Params e l) 0 = (100, 10) := by
  have hs : (1:ℚ)/100 ≤ calculate_optimal_spread (c3Params e l) 0 0 := by
    have h := min_spread_le_optimal (c3Params e l) 0 0
    simpa [c3Params, scenarioParams] using h
  refine ⟨?_, ?_, ?_⟩
  · simp only [calculate_asymmetric_quotes, reservation_price_zero_inventory,
      bid_spread_zero_inventory]
    apply max_lt (by norm_num)
    apply lt_of_le_of_lt (min_le_right _ _)
    linarith
  · simp only [calculate_asymmetric_quotes, reservation_price_zero_inventory,
      ask_spread_zero_inventory]
    apply lt_min (by norm_num)
    apply lt_of_lt_of_le _ (le_max_right _ _)
    linarith
  · norm_num [calculate_order_sizes, pyInt, c3Params, scenarioParams]

/-- Closed instance of C3 with concrete rational functions in place of
`math.exp` and `math.log`. -/
theorem C3_witness :
    (calculate_asymmetric_quotes (c3Params (fun q => 1 + q) (fun q => q)) (1/2) 0 0).1 < 1/2 ∧
    (1:ℚ)/2 <
      (calculate_asymmetric_quotes (c3Params (fun q => 1 + q) (fun q => q)) (1/2) 0 0).2 ∧
    calculate_order_sizes (c3Params (fun q => 1 + q) (fun q => q)) 0 = (100, 10) :=
  C3_scenario (fun q => 1 + q) (fun q => q)

/-- Counterexample to claim C3 as stated: at the scenario parameters with
`inventory = 0`, `calculate_order_sizes` returns `(100, 10)`; the sell size
is `10`, not `max_position = 100`, so `buy_size == sell_size ==
max_position` fails. -/
theorem C3_counterexample :
    calculate_order_sizes scenarioParams 0 = (100, 10) ∧
    (calculate_order_sizes scenarioParams 0).2 ≠ scenarioParams.max_position := by
  norm_num [calculate_order_sizes, pyInt, scenarioParams]

theorem scan_orders_keep_some (p : MMParams) (dp : ℚ) (ds : ℤ) (l : List OpenOrder)
    (o : OpenOrder) :
    scan_orders p dp ds l (some o) = (some o, l.map OpenOrder.order_id) := by
  induction l with
  | nil => rfl
  | cons a l ih => simp [scan_orders, ih]

theorem scan_orders_found (p : MMParams) (dp : ℚ) (ds : ℤ) (l : List OpenOrder)
    (h : ∃ o ∈ l, |order_price p o - dp| < 1/100 ∧ o.remaining_count = ds) :
    (scan_orders p dp ds l none).1.isSome ∧
    (scan_orders p dp ds l none).2.length + 1 = l.length := by
  induction l with
  | nil => simp at h
  | cons a l ih =>
    by_cases ha : |order_price p a - dp| < 1/100 ∧ a.remaining_count = ds
    · obtain ⟨ha1, ha2⟩ := ha
      simp only [scan_orders]
      rw [if_pos ⟨rfl, ha1, ha2⟩, scan_orders_keep_some]
      simp
    · have h' : ∃ o ∈ l, |order_price p o - dp| < 1/100 ∧ o.remaining_count = ds := by
        rcases h with ⟨o, ho, hm⟩
        rcases List.mem_cons.mp ho with rfl | ho'
        · exact absurd hm ha
        · exact ⟨o, ho', hm⟩
      obtain ⟨h1, h2⟩ := ih h'
      have hcond : ¬ (((none : Option OpenOrder).isNone : Prop) ∧
          |order_price p a - dp| < 1/100 ∧ a.remaining_count = ds) := by
        intro hc
        exact ha hc.2
      simp only [scan_orders]
      rw [if_neg hcond]
      constructor
      · simpa using h1
      · simp only [List.length_cons]
        omega

/-- Claim C4 (amended): when the open-order list on a side contains an order
whose price is strictly within 1 cent of the desired price (the code tests
`abs(current_price - desired_price) < 0.01`, so a difference of exactly one
cent does not match) and whose remaining size equals the desired size, the
reconciliation pass keeps the first such order: it cancels exactly the
other orders of that side and places nothing; in particular when the
matching order is the only order on the side, zero cancellations and zero
placements are issued. -/
theorem C4_idempotent_keep (p : MMParams) (action : String) (orders : List OpenOrder)
    (dp : ℚ) (ds : ℤ) (cp : ℚ)
    (h : ∃ o ∈ orders, |order_price p o - dp| < 1/100 ∧ o.remaining_count = ds) :
    (handle_order_side p action orders dp ds cp).1.length + 1 = orders.length ∧
    (handle_order_side p action orders dp ds cp).2 = none ∧
    (orders.length = 1 → handle_order_side p action orders dp ds cp = ([], none)) := by
  obtain ⟨h1, h2⟩ := scan_orders_found p dp ds orders h
  rcases Option.isSome_iff_exists.mp h1 with ⟨o, ho⟩
  refine ⟨?_, ?_, ?_⟩
  · simpa [handle_order_side] using h2
  · simp [handle_order_side, ho]
  · intro hlen
    have hc : (scan_orders p dp ds orders none).2.length = 0 := by omega
    have hnil : (scan_orders p dp ds orders none).2 = [] := List.length_eq_zero.mp hc
    simp [handle_order_side, ho, hnil]

/-- A live buy order at 45 cents with remaining size 10, exactly matching a
desired price of 0.45 and size 10. -/
def keepOrder : OpenOrder :=
  { order_id := "oid-45", side := "yes", action := "buy", yes_price := 45, no_price := 55,
    remaining_count := 10 }

/-- Closed instance of C4: reconciling a single exactly-matching buy order
issues zero cancellations and zero placements. -/
theorem C4_witness :
    (handle_order_side scenarioParams "buy" [keepOrder] (45/100) 10 (1/2)).1.length + 1 = 1 ∧
    (handle_order_side scenarioParams "buy" [keepOrder] (45/100) 10 (1/2)).2 = none ∧
    ([keepOrder].length = 1 →
      handle_order_side scenarioParams "buy" [keepOrder] (45/100) 10 (1/2) = ([], none)) :=
  C4_idempotent_keep scenarioParams "buy" [keepOrder] (45/100) 10 (1/2)
    ⟨keepOrder, by simp, by norm_num [order_price, keepOrder, scenarioParams]⟩

/-- A live buy order at 46 cents with remaining size 10: exactly one cent
away from a desired price of 0.45. -/
def cexOrder : OpenOrder :=
  { order_id := "oid-46", side := "yes", action := "buy", yes_price := 46, no_price := 54,
    remaining_count := 10 }

/-- Counterexample to claim C4 as stated: an order whose price is within 1
cent inclusive of the desired price (difference exactly 0.01) and whose
remaining size equals the desired size is nevertheless cancelled, because
the code's match test is strict (`< 0.01`); so the pass issues one
cancellation, not zero. -/
theorem C4_counterexample :
    |order_price scenarioParams cexOrder - 45/100| ≤ 1/100 ∧
    cexOrder.remaining_count = 10 ∧
    (handle_order_side scenarioParams "buy" [cexOrder] (45/100) 10 (1/2)).1 = ["oid-46"] := by
  norm_num [handle_order_side, scan_orders, order_price, cexOrder, scenarioParams,
    abs_of_nonneg]

theorem handle_order_side_place_none (p : MMParams) (action : String)
    (orders : List OpenOrder) (dp : ℚ) (ds : ℤ) (cp : ℚ)
    (h : ¬ ((action = "buy" ∧ dp < cp) ∨ (action = "sell" ∧ dp > cp))) :
    (handle_order_side p action orders dp ds cp).2 = none := by
  simp only [handle_order_side]
  split_ifs <;> simp_all

theorem handle_order_side_place_isSome (p : MMParams) (action : String)
    (orders : List OpenOrder) (dp : ℚ) (ds : ℤ) (cp : ℚ)
    (h : (handle_order_side p action orders dp ds cp).2.isSome) :
    (action = "buy" ∧ dp < cp) ∨ (action = "sell" ∧ dp > cp) := by
  by_contra hc
  rw [handle_order_side_place_none p action orders dp ds cp hc] at h
  simp at h

/-- Claim C8: during reconciliation of one side, a buy order is placed only
if the desired price is strictly below the mid price re-fetched at decision
time (`cp`), and a sell order only if the desired price is strictly above
it; when the comparison fails, no order is placed for that side. -/
theorem C8_maker_only_guard (p : MMParams) (orders : List OpenOrder) (dp : ℚ) (ds : ℤ)
    (cp : ℚ) :
    ((handle_order_side p "buy" orders dp ds cp).2.isSome → dp < cp) ∧
    ((handle_order_side p "sell" orders dp ds cp).2.isSome → cp < dp) ∧
    (¬ dp < cp → (handle_order_side p "buy" orders dp ds cp).2 = none) ∧
    (¬ cp < dp → (handle_order_side p "sell" orders dp ds cp).2 = none) := by
  refine ⟨fun hx => ?_, fun hx => ?_, fun hx => ?_, fun hx => ?_⟩
  · rcases handle_order_side_place_isSome p "buy" orders dp ds cp hx with ⟨-, h⟩ | ⟨hb, -⟩
    · exact h
    · exact absurd hb (by decide)
  · rcases handle_order_side_place_isSome p "sell" orders dp ds cp hx with ⟨hb, -⟩ | ⟨-, h⟩
    · exact absurd hb (by decide)
    · exact h
  · refine handle_order_side_place_none p "buy" orders dp ds cp ?_
    rintro (⟨-, hlt⟩ | ⟨heq, -⟩)
    · exact hx hlt
    · exact absurd heq (by decide)
  · refine handle_order_side_place_none p "sell" orders dp ds cp ?_
    rintro (⟨heq, -⟩ | ⟨-, hlt⟩)
    · exact absurd heq (by decide)
    · exact hx hlt

/-- Closed instance of C8: with a desired buy price of 0.5 above the
re-fetched mid price 0.25, no buy order is placed. -/
theorem C8_witness : (handle_order_side scenarioParams "buy" [] (1/2) 10 (1/4)).2 = none :=
  (C8_maker_only_guard scenarioParams [] (1/2) 10 (1/4)).2.2.1 (by norm_num)

theorem takeWhile_until_mark (l q : List Char) (h : '?' ∉ l) :
    (l ++ '?' :: q).takeWhile (fun c => c ≠ '?') = l := by
  induction l with
  | nil => simp
  | cons a l ih =>
    have ha : a ≠ '?' := fun e => h (e ▸ List.mem_cons_self a l)
    have hl : '?' ∉ l := fun hm => h (List.mem_cons_of_mem a hm)
    simp only [List.cons_append, List.takeWhile_cons]
    rw [if_pos (by simp [ha]), ih hl]

/-- Claim C7: for every timestamp string, HTTP method, and request path, the
message signed for authentication is the concatenation
`timestamp + method + path` with the query string stripped from the path:
for a path `base ++ "?" ++ query` whose base contains no `'?'`, the signed
message is exactly `timestamp ++ method ++ base`. -/
theorem C7_signing_message_strips_query (ts m base query : String) (h : '?' ∉ base.data) :
    signing_message ts m (base ++ "?" ++ query) = ts ++ m ++ base := by
  have hdata : (base ++ "?" ++ query).data = base.data ++ '?' :: query.data := by
    simp [String.data_append]
  have hstrip : path_without_query (base ++ "?" ++ query) = base := by
    simp only [path_without_query, hdata, takeWhile_until_mark base.data query.data h]
  simp only [signing_message, hstrip]

/-- Closed instance of C7 at the spec's scenario: signing
`timestamp_ms='1700000000000'`, `method='GET'`,
`path='/trade-api/v2/portfolio/balance?x=1'` produces exactly
`'1700000000000GET/trade-api/v2/portfolio/balance'`. -/
theorem C7_witness :
    '?' ∉ "/trade-api/v2/portfolio/balance".data ∧
    signing_message "1700000000000" "GET" ("/trade-api/v2/portfolio/balance" ++ "?" ++ "x=1") =
      "1700000000000" ++ "GET" ++ "/trade-api/v2/portfolio/balance" :=
  ⟨by decide, C7_signing_message_strips_query "1700000000000" "GET"
    "/trade-api/v2/portfolio/balance" "x=1" (by decide)⟩

end KalshiMM
